import Mathlib

/-!
Verification of the asmjit core code-generation substrate against its
specification.  The development shallowly embeds the data model and the
operations of `BaseAssembler` (src/asmjit/core/assembler.cpp),
`BaseEmitter` (src/asmjit/core/emitter.h) and the Compiler data model
(src/asmjit/core/compiler.h).  Machine integers are modelled as `Nat`
with explicit `% 2 ^ w` wherever the source relies on fixed-width
wraparound; fallible operations return an explicit error code paired
with the post-state.
-/

namespace AsmJit

/-- Error taxonomy of the library (`Error` / `kError*` codes, globals.h,
abstracted as an inductive: only the identity of the code matters). -/
inductive AsmError where
  | ok
  | notInitialized
  | invalidArgument
  | invalidLabel
  | invalidSection
  | invalidOperandSize
  | labelAlreadyBound
  | outOfMemory
  | relocationOffsetOutOfRange
  deriving DecidableEq, Repr

/-- The invalid id sentinel `Globals::kInvalidId` (0xFFFFFFFF). -/
def kInvalidId : Nat := 4294967295

/-- RelocEntry kinds, wire-stable values (`RelocEntry::kTypeNone` = 0,
`kTypeAbsToAbs` = 1, `kTypeRelToAbs` = 2, `kTypeAbsToRel` = 3,
`kTypeExpression` = 4). -/
def kTypeRelToAbs : Nat := 2

/-- RelocEntry kind for expression fixups. -/
def kTypeExpression : Nat := 4

/-- Expression op `Expression::kOpSub`. -/
def kOpSub : Nat := 1

/-- Truncation to an unsigned 64-bit value. -/
def u64 (n : Nat) : Nat := n % 2 ^ 64

/-- Unsigned 64-bit subtraction with wraparound, as computed by
`uint64_t a - uint64_t b` in the source. -/
def u64sub (a b : Nat) : Nat := (u64 a + (2 ^ 64 - u64 b)) % 2 ^ 64

/-- Little-endian byte image of `value` truncated to `width` bytes, as
written by `CodeBufferWriter::emitValueLE`. -/
def leBytes (width value : Nat) : List Nat :=
  (List.range width).map (fun i => value / 256 ^ i % 256)

/-- `Support::isPowerOf2` from support.h: `x && !(x & (x - 1))`. -/
def isPowerOf2 (x : Nat) : Bool := x != 0 && (x &&& (x - 1)) == 0

-- ============================================================================
-- Compiler data model (compiler.h)
-- ============================================================================

/-- `RegInfo`: a 32-bit register signature wrapper. -/
structure RegInfo where
  signature : Nat
  deriving DecidableEq, Repr

/-- `VirtReg` (compiler.h): virtual register data managed by BaseCompiler.
`alignment`, `typeId` and `weight` are `uint8_t` fields; the register
allocator work-state back-pointer `_workReg` is modelled as an optional
handle. -/
structure VirtReg where
  id : Nat
  info : RegInfo
  virtSize : Nat
  alignment : Nat
  typeId : Nat
  weight : Nat
  isFixed : Bool
  isStack : Bool
  name : String
  workReg : Option Nat
  deriving DecidableEq, Repr

/-- The `VirtReg` constructor (compiler.h lines 101-111): initializes
`_weight(1)`, `_isFixed(false)`, `_isStack(false)`, `_name()`,
`_workReg(nullptr)` and stores `signature` into `_info._signature`;
`alignment` and `typeId` are narrowed through `uint8_t(...)`. -/
def VirtReg.make (id signature virtSize alignment typeId : Nat) : VirtReg :=
  { id := id
    info := { signature := signature }
    virtSize := virtSize
    alignment := alignment % 256
    typeId := typeId % 256
    weight := 1
    isFixed := false
    isStack := false
    name := ""
    workReg := none }

/-- `JumpAnnotation` (compiler.h): annotation id plus the
`ZoneVector<uint32_t> _labelIds` vector of target label ids. -/
structure JumpAnno where
  annotationId : Nat
  labelIds : List Nat
  deriving DecidableEq, Repr

/-- `JumpAnnotation::addLabelId` (compiler.h line 445):
`_labelIds.append(&_compiler->_allocator, labelId)` — a plain
ZoneVector append. -/
def JumpAnno.addLabelId (a : JumpAnno) (labelId : Nat) : JumpAnno :=
  { a with labelIds := a.labelIds ++ [labelId] }

/-- `JumpAnnotation::hasLabelId` (compiler.h line 440):
`_labelIds.contains(labelId)`. -/
def JumpAnno.hasLabelId (a : JumpAnno) (labelId : Nat) : Bool :=
  a.labelIds.contains labelId

-- ============================================================================
-- CodeHolder data model (labels, links, relocations, sections)
-- ============================================================================

/-- `LabelEntry`: section id is `none` while the label is unbound
(`isBound()` tests `_sectionId != Globals::kInvalidId`). -/
structure LabelEntry where
  sectionId : Option Nat
  offset : Nat
  deriving DecidableEq, Repr

/-- `LabelEntry::isBound`. -/
def LabelEntry.isBound (le : LabelEntry) : Bool := le.sectionId.isSome

/-- `LabelLink`: a pending forward reference — target label id, source
section id, source offset, relative base offset, and the optional id of a
cooperating RelocEntry. -/
structure LabelLink where
  labelId : Nat
  sectionId : Nat
  offset : Nat
  relOffset : Nat
  relocId : Option Nat
  deriving DecidableEq, Repr

/-- An operand slot of a relocation `Expression` (Expression::Value);
the claims only create flat label-minus-label expressions, so nested
expression pointers are not needed by this development. -/
inductive ExprValue where
  | none
  | constant (value : Nat)
  | labelRef (labelId : Nat)
  deriving DecidableEq, Repr

/-- `Expression` (codeholder.h): op plus two operand slots.  Labels are
referenced through their opaque ids. -/
structure RelocExpr where
  opType : Nat
  value0 : ExprValue
  value1 : ExprValue
  deriving DecidableEq, Repr

/-- Payload of a RelocEntry: either a 64-bit integer or an arena pointer
to an Expression tree. -/
inductive RelocPayload where
  | value (v : Nat)
  | expression (e : RelocExpr)
  deriving DecidableEq, Repr

/-- `RelocEntry`: id, kind, value width in bytes, source (section,
offset), target section id and payload. -/
structure RelocEntry where
  id : Nat
  relocType : Nat
  valueSize : Nat
  sourceSectionId : Nat
  sourceOffset : Nat
  targetSectionId : Nat
  payload : RelocPayload
  deriving DecidableEq, Repr

/-- The parts of `CodeHolder` the assembler operations touch: the label
table (indexed by dense label id), the relocation table, the pending
LabelLink list (kept flat, each link naming its label), and the section
byte buffers (indexed by dense section id). -/
structure CodeHolder where
  labels : List LabelEntry
  relocations : List RelocEntry
  links : List LabelLink
  sections : List (List Nat)
  deriving DecidableEq, Repr

/-- `CodeHolder::labelEntry`: table lookup returning null for an
out-of-range id. -/
def CodeHolder.labelEntry (ch : CodeHolder) (labelId : Nat) : Option LabelEntry :=
  ch.labels.get? labelId

/-- Modelled from the spec: `CodeHolder::newLabelLink` (codeholder.cpp is
not under src/) allocates a LabelLink recording the target label and the
source position; `relocId` is unset on creation (the assembler assigns
it right after allocation when the link cooperates with a RelocEntry). -/
def mkLabelLink (labelId sectionId offset relOffset : Nat) : LabelLink :=
  { labelId := labelId, sectionId := sectionId, offset := offset,
    relOffset := relOffset, relocId := none }

-- ============================================================================
-- Assembler state (assembler.cpp)
-- ============================================================================

/-- The observable state of a `BaseAssembler` attached to a CodeHolder:
`attached` models `_code != nullptr`, `gpSize` the architecture's native
GP register width from `_codeInfo`, `sectionId` the active section, and
`code` the container.  The cursor `_bufferPtr` sits at the tail of the
active section's buffer (append-only emission), so `offset()` is that
buffer's length. -/
structure AsmState where
  attached : Bool
  gpSize : Nat
  sectionId : Nat
  code : CodeHolder
  deriving DecidableEq, Repr

/-- Byte buffer of the active section. -/
def AsmState.buffer (st : AsmState) : List Nat :=
  st.code.sections.getD st.sectionId []

/-- `BaseAssembler::offset()`: `_bufferPtr - _bufferData`. -/
def AsmState.offset (st : AsmState) : Nat := st.buffer.length

/-- `CodeBufferWriter` append into the active section (`emitData` /
`emitZeros` / `emitValueLE` followed by `done`): bytes are appended at
the cursor and the section size advanced. -/
def AsmState.appendBytes (st : AsmState) (bs : List Nat) : AsmState :=
  { st with code :=
      { st.code with sections := st.code.sections.set st.sectionId (st.buffer ++ bs) } }

/-- `BaseAssembler::embed` (assembler.cpp lines 157-176): fails when not
attached, is a no-op for `dataSize == 0`, otherwise appends `dataSize`
bytes of `data`.  Buffer growth (`ensureSpace`) is abstracted as
succeeding. -/
def embed (st : AsmState) (data : List Nat) (dataSize : Nat) : AsmError × AsmState :=
  if !st.attached then (.notInitialized, st)
  else if dataSize = 0 then (.ok, st)
  else (.ok, st.appendBytes (data.take dataSize))

/-- `BaseAssembler::embedDataArray` (assembler.cpp lines 178-212).
`Type::deabstract` / `Type::isValid` / `Type::sizeOf` live in type.h
(outside src/), so the resolved type's validity and byte size enter as
the parameters `typeValid` and `typeSize`.  The two `Support::mulOverflow`
calls share one sticky overflow flag; `size_t` is modelled as 64-bit.
`reportError` returns the error it is given (emitter.h lines 297-301). -/
def embedDataArray (st : AsmState) (typeValid : Bool) (typeSize : Nat)
    (data : List Nat) (itemCount repeatCount : Nat) : AsmError × AsmState :=
  if !typeValid then (.invalidArgument, st)
  else if itemCount = 0 || repeatCount = 0 then (.ok, st)
  else
    let dataSize := (itemCount * typeSize) % 2 ^ 64
    let overflow :=
      decide (2 ^ 64 ≤ itemCount * typeSize) || decide (2 ^ 64 ≤ dataSize * repeatCount)
    if overflow then (.outOfMemory, st)
    else (.ok, st.appendBytes (List.flatten (List.replicate repeatCount (data.take dataSize))))

/-- `BaseAssembler::embedLabel` (assembler.cpp lines 241-299): always
allocates a `kTypeRelToAbs` RelocEntry of width `gpSize()` recording the
source position (the resolved-immediate fast path in the source is
commented out); when the label is bound the entry's target section and
payload are filled from the label, otherwise a LabelLink carrying the
RelocEntry's id is created; finally `gpSize()` zero bytes are emitted. -/
def embedLabel (st : AsmState) (labelId : Nat) : AsmError × AsmState :=
  if !st.attached then (.notInitialized, st)
  else
    match st.code.labelEntry labelId with
    | none => (.invalidLabel, st)
    | some le =>
      let dataSize := st.gpSize
      let reId := st.code.relocations.length
      let re : RelocEntry :=
        { id := reId, relocType := kTypeRelToAbs, valueSize := dataSize,
          sourceSectionId := st.sectionId, sourceOffset := st.offset,
          targetSectionId := kInvalidId, payload := .value 0 }
      let code :=
        match le.sectionId with
        | some sec =>
          { st.code with relocations := st.code.relocations ++
              [{ re with targetSectionId := sec, payload := .value le.offset }] }
        | none =>
          { st.code with
              relocations := st.code.relocations ++ [re],
              links := st.code.links ++
                [{ mkLabelLink labelId st.sectionId st.offset 0 with relocId := some reId }] }
      (.ok, AsmState.appendBytes { st with code := code } (List.replicate dataSize 0))

/-- `BaseAssembler::embedLabelDelta` (assembler.cpp lines 301-361): after
validating both labels and the width (0 is replaced by `gpSize()`; a
non-power-of-two or > 8 width fails with invalid-operand-size), either
writes the little-endian `uint64_t` difference of the two bound offsets
directly (both labels bound in the same section), or allocates an
expression RelocEntry computing `label - base` and emits zeros. -/
def embedLabelDelta (st : AsmState) (labelId baseId : Nat) (requestedSize : Nat) :
    AsmError × AsmState :=
  if !st.attached then (.notInitialized, st)
  else
    match st.code.labelEntry labelId, st.code.labelEntry baseId with
    | some labelE, some baseE =>
      let dataSize := if requestedSize = 0 then st.gpSize else requestedSize
      if !(isPowerOf2 dataSize) || decide (8 < dataSize) then (.invalidOperandSize, st)
      else
        if labelE.isBound && baseE.isBound && labelE.sectionId == baseE.sectionId then
          let delta := u64sub labelE.offset baseE.offset
          (.ok, st.appendBytes (leBytes dataSize delta))
        else
          let reId := st.code.relocations.length
          let exp : RelocExpr :=
            { opType := kOpSub, value0 := .labelRef labelId, value1 := .labelRef baseId }
          let re : RelocEntry :=
            { id := reId, relocType := kTypeExpression, valueSize := dataSize,
              sourceSectionId := st.sectionId, sourceOffset := st.offset,
              targetSectionId := kInvalidId, payload := .expression exp }
          (.ok, AsmState.appendBytes
            { st with code :=
                { st.code with relocations := st.code.relocations ++ [re] } }
            (List.replicate dataSize 0))
    | _, _ => (.invalidLabel, st)

-- ============================================================================
-- Label binding (BaseAssembler::bind + CodeHolder::bindLabel)
-- ============================================================================

/-- Modelled from the spec: resolution of one LabelLink when its label is
bound (part of `CodeHolder::bindLabel`, codeholder.cpp is not under
src/), following spec section 4.6 step 2.  A link with a relocId has its
target metadata lifted into the owning RelocEntry.  A link without a
relocId is patched in place only when its source section is the section
the label is bound into ("the source and link target are in the same
section"): the target byte range receives the signed relative delta
little-endian (the spec leaves the width to link metadata; the model
uses the native 4-byte displacement width), and when the signed value
does not fit the width the resolution fails with
relocation-offset-out-of-range and nothing is written.  A cross-section
link without a relocId is outside the two cases the spec enumerates and
is left untouched here (it is freed with the rest of the list by
bindLabel, spec 4.6 step 3). -/
def resolveLink (ch : CodeHolder) (boundSectionId boundOffset : Nat)
    (link : LabelLink) : AsmError × CodeHolder :=
  match link.relocId with
  | some rid =>
    (.ok, { ch with relocations := ch.relocations.map (fun re =>
        if re.id = rid then
          { re with targetSectionId := boundSectionId, payload := .value boundOffset }
        else re) })
  | none =>
    if link.sectionId = boundSectionId then
      let delta : Int := (boundOffset : Int) - link.offset - link.relOffset
      if -(2 ^ 31 : Int) ≤ delta ∧ delta < 2 ^ 31 then
        let buf := ch.sections.getD link.sectionId []
        let patched := buf.take link.offset ++
          leBytes 4 ((delta % (2 ^ 32 : Int)).toNat) ++ buf.drop (link.offset + 4)
        (.ok, { ch with sections := ch.sections.set link.sectionId patched })
      else (.relocationOffsetOutOfRange, ch)
    else (.ok, ch)

/-- Modelled from the spec: `CodeHolder::bindLabel(id, sectionId, offset)`
(codeholder.cpp is not under src/): fails with invalid-label for an
unknown id and with label-already-bound when the entry already has a
location, leaving the container unchanged; otherwise it sets the entry's
section and offset, walks the label's LabelLink list resolving each link
(an in-place patch whose signed delta does not fit surfaces as
relocation-offset-out-of-range; the first error is kept while the
remaining links are still processed, and the entry stays bound), and
frees the processed links. -/
def CodeHolder.bindLabel (ch : CodeHolder) (labelId sectionId offset : Nat) :
    AsmError × CodeHolder :=
  match ch.labels.get? labelId with
  | none => (.invalidLabel, ch)
  | some le =>
    if le.isBound then (.labelAlreadyBound, ch)
    else
      let bound : CodeHolder :=
        { ch with labels :=
            ch.labels.set labelId { le with sectionId := some sectionId, offset := offset } }
      let mine := bound.links.filter (fun l => l.labelId == labelId)
      let resolved := mine.foldl
        (fun acc l =>
          ((if acc.1 = AsmError.ok then (resolveLink acc.2 sectionId offset l).1
            else acc.1),
           (resolveLink acc.2 sectionId offset l).2))
        (AsmError.ok, bound)
      (resolved.1,
       { resolved.2 with links := resolved.2.links.filter (fun l => l.labelId != labelId) })

/-- `BaseAssembler::bind` (assembler.cpp lines 122-138): fails when not
attached, otherwise delegates to `CodeHolder::bindLabel` with the active
section and current offset (the inline comment reset on the emitter
side is tracked by the emitter model). -/
def bind (st : AsmState) (labelId : Nat) : AsmError × AsmState :=
  if !st.attached then (.notInitialized, st)
  else
    let r := st.code.bindLabel labelId st.sectionId st.offset
    (r.1, { st with code := r.2 })

-- ============================================================================
-- Emitter instruction state and error routing (emitter.h)
-- ============================================================================

/-- `RegOnly`: signature plus id; `reset()` zeroes both and `isReg()`
then reports no register. -/
structure RegOnly where
  signature : Nat
  id : Nat
  deriving DecidableEq, Repr

/-- `RegOnly.reset()`: no register. -/
def RegOnly.cleared : RegOnly := { signature := 0, id := 0 }

/-- The `BaseEmitter` fields the emit contract touches: the
next-instruction option word, the global option word, the extra register
slot, the inline comment pointer, and the two possible error handlers
(the emitter's own `_errorHandler` and the attached CodeHolder's),
each modelled as an optional handler identity. -/
structure EmitterState where
  instOptions : Nat
  globalInstOptions : Nat
  extraReg : RegOnly
  inlineComment : Option String
  errorHandler : Option Nat
  codeErrorHandler : Option Nat
  deriving DecidableEq, Repr

/-- `BaseEmitter::resetInstOptions` (emitter.h line 315). -/
def EmitterState.resetInstOptions (e : EmitterState) : EmitterState :=
  { e with instOptions := 0 }

/-- `BaseEmitter::resetExtraReg` (emitter.h line 326). -/
def EmitterState.resetExtraReg (e : EmitterState) : EmitterState :=
  { e with extraReg := RegOnly.cleared }

/-- `BaseEmitter::resetInlineComment` (emitter.h line 337). -/
def EmitterState.resetInlineComment (e : EmitterState) : EmitterState :=
  { e with inlineComment := none }

/-- The data a single emitted instruction consumes from the emitter:
instruction id, the per-instruction options merged with the global
options, the extra register and the inline comment. -/
structure EmittedInst where
  instId : Nat
  options : Nat
  extraReg : RegOnly
  comment : Option String
  deriving DecidableEq, Repr

/-- Modelled from the spec: a successful run of the architecture-specific
`_emit` implementation (not under src/ — only the `BaseEmitter::_emit`
declaration and the reset helpers in emitter.h are).  The instruction is
encoded from the per-instruction option word merged with the global
options, the extra register and the inline comment, and afterwards the
per-instruction option word, extra register and inline comment are
reset. -/
def emitOne (e : EmitterState) (instId : Nat) : EmittedInst × EmitterState :=
  ({ instId := instId
     options := e.instOptions ||| e.globalInstOptions
     extraReg := e.extraReg
     comment := e.inlineComment },
   e.resetInstOptions.resetExtraReg.resetInlineComment)

/-- Modelled from the spec: `BaseEmitter::reportError(err, message)`
(emitter.cpp is not under src/; emitter.h lines 297-301 document it):
it selects the emitter's ErrorHandler when attached, falling back to the
CodeHolder's, invokes it when present, and returns the given error when
no invoked handler throws or aborts (handlers are modelled as returning
normally).  The result pairs the identity of the invoked handler — none
when neither is attached — with the returned error. -/
def reportError (e : EmitterState) (err : AsmError) : Option Nat × AsmError :=
  let handler :=
    match e.errorHandler with
    | some h => some h
    | none => e.codeErrorHandler
  (handler, err)

-- ============================================================================
-- Concrete states used by witnesses
-- ============================================================================

/-- A minimal attached x64 assembler state: one empty `.text` section and
one unbound label. -/
def sampleUnbound : AsmState :=
  { attached := true, gpSize := 8, sectionId := 0,
    code := { labels := [{ sectionId := none, offset := 0 }],
              relocations := [], links := [], sections := [[]] } }

/-- An attached x64 assembler state with two labels bound in section 0 at
offsets 0x40 and 0x10 (the spec's embed_label_delta scenario). -/
def sampleBound : AsmState :=
  { attached := true, gpSize := 8, sectionId := 0,
    code := { labels := [{ sectionId := some 0, offset := 64 },
                         { sectionId := some 0, offset := 16 }],
              relocations := [], links := [], sections := [[]] } }

/-- An emitter state with distinct handlers attached on both the emitter
and the container. -/
def sampleEmitter : EmitterState :=
  { instOptions := 0, globalInstOptions := 0, extraReg := RegOnly.cleared,
    inlineComment := none, errorHandler := some 1, codeErrorHandler := some 2 }

end AsmJit

-- ============================================================================
-- Theorems
-- ============================================================================

namespace AsmJit

/-- Claim C10: every freshly constructed VirtReg starts with weight 1, the
fixed flag and stack-only flag both false, a null `_workReg` pointer, and
its stored signature equals the signature it was constructed with. -/
theorem virtReg_ctor_defaults (id signature virtSize alignment typeId : Nat) :
    (VirtReg.make id signature virtSize alignment typeId).weight = 1 ∧
    (VirtReg.make id signature virtSize alignment typeId).isFixed = false ∧
    (VirtReg.make id signature virtSize alignment typeId).isStack = false ∧
    (VirtReg.make id signature virtSize alignment typeId).workReg = none ∧
    (VirtReg.make id signature virtSize alignment typeId).info.signature = signature := by
  refine ⟨rfl, rfl, rfl, rfl, rfl⟩

/-- Claim C2, counterexample: adding label id 5 twice to a fresh
JumpAnnotation leaves the target list containing 5 twice, not exactly
once — `addLabelId` does not coalesce duplicates. -/
theorem addLabelId_duplicate_not_coalesced_cex :
    ¬ ((((⟨0, []⟩ : JumpAnno).addLabelId 5).addLabelId 5).labelIds.count 5 = 1) := by
  decide

/-- Claim C2, amended: adding a label id x to a JumpAnnotation twice
appends it twice — the target collection is a vector that keeps
duplicates, so x occurs exactly two more times than before (and is a
member afterwards). -/
theorem addLabelId_append_count (a : JumpAnno) (x : Nat) :
    ((a.addLabelId x).addLabelId x).labelIds.count x = a.labelIds.count x + 2 ∧
    ((a.addLabelId x).addLabelId x).hasLabelId x = true := by
  constructor
  · simp [JumpAnno.addLabelId, List.count_append]
  · simp [JumpAnno.addLabelId, JumpAnno.hasLabelId]

/-- Claim C5: after every successful emit the per-instruction option
word is 0, the extra register slot holds no register, and the inline
comment pointer is null; consequently a second emitted instruction sees
only the global options and none of the per-instruction state set before
the first one. -/
theorem emit_resets_inst_state (e : EmitterState) (instId nextId : Nat) :
    ((emitOne e instId).2).instOptions = 0 ∧
    ((emitOne e instId).2).extraReg = RegOnly.cleared ∧
    ((emitOne e instId).2).inlineComment = none ∧
    (emitOne (emitOne e instId).2 nextId).1 =
      { instId := nextId, options := e.globalInstOptions,
        extraReg := RegOnly.cleared, comment := none } := by
  refine ⟨rfl, rfl, rfl, ?_⟩
  simp [emitOne, EmitterState.resetInstOptions, EmitterState.resetExtraReg,
        EmitterState.resetInlineComment]

/-- Claim C6: when an error handler is attached on both the emitter and
the container, `reportError` invokes the emitter's handler, and (the
invoked handler returning normally) returns exactly the error it was
given. -/
theorem reportError_takes_emitter_handler (e e' : EmitterState) (h hc : Nat)
    (err : AsmError)
    (he : e.errorHandler = some h) (_hhc : e.codeErrorHandler = some hc) :
    reportError e err = (some h, err) ∧ (reportError e' err).2 = err := by
  constructor
  · simp [reportError, he]
  · rfl

/-- Claim C6, witness: on a concrete emitter with handler 1 attached
locally and handler 2 on the container, handler 1 is consulted and the
error value is returned unchanged. -/
theorem reportError_takes_emitter_handler_witness :
    reportError sampleEmitter AsmError.invalidLabel = (some 1, AsmError.invalidLabel) :=
  (reportError_takes_emitter_handler sampleEmitter sampleEmitter 1 2
    AsmError.invalidLabel rfl rfl).1

/-- Claim C8: zero-sized embeds are successful no-ops — on an attached
assembler `embed(data, 0)` returns success, and `embedDataArray` with a
valid type and a zero item or repeat count returns success; the state
(section buffers and hence the offset) is unchanged. -/
theorem zero_sized_embeds_noop (st : AsmState) (data : List Nat)
    (typeSize itemCount repeatCount : Nat)
    (hatt : st.attached = true) :
    embed st data 0 = (AsmError.ok, st) ∧
    (itemCount = 0 ∨ repeatCount = 0 →
      embedDataArray st true typeSize data itemCount repeatCount = (AsmError.ok, st)) := by
  constructor
  · simp [embed, hatt]
  · intro hz
    rcases hz with hz | hz <;> simp [embedDataArray, hz]

/-- Claim C8, witness: on the concrete attached state both zero-sized
embed forms succeed and leave the state unchanged. -/
theorem zero_sized_embeds_noop_witness :
    embed sampleUnbound [1, 2, 3] 0 = (AsmError.ok, sampleUnbound) ∧
    embedDataArray sampleUnbound true 4 [1, 2, 3] 0 7 = (AsmError.ok, sampleUnbound) :=
  ⟨(zero_sized_embeds_noop sampleUnbound [1, 2, 3] 4 0 7 rfl).1,
   (zero_sized_embeds_noop sampleUnbound [1, 2, 3] 4 0 7 rfl).2 (Or.inl rfl)⟩

/-- Claim C9: when `itemCount * typeSize` or that product times
`repeatCount` overflows the 64-bit size type, `embedDataArray` reports
out-of-memory and appends nothing — no silently truncated data is ever
written. -/
theorem embedDataArray_overflow_oom (st : AsmState) (typeSize : Nat) (data : List Nat)
    (itemCount repeatCount : Nat)
    (hi : itemCount ≠ 0) (hr : repeatCount ≠ 0)
    (hov : 2 ^ 64 ≤ itemCount * typeSize ∨ 2 ^ 64 ≤ itemCount * typeSize * repeatCount) :
    embedDataArray st true typeSize data itemCount repeatCount =
      (AsmError.outOfMemory, st) := by
  have hflag : (decide (2 ^ 64 ≤ itemCount * typeSize) ||
      decide (2 ^ 64 ≤ itemCount * typeSize % 2 ^ 64 * repeatCount)) = true := by
    rw [Bool.or_eq_true, decide_eq_true_eq, decide_eq_true_eq]
    rcases hov with h | h
    · exact Or.inl h
    · rcases Nat.lt_or_ge (itemCount * typeSize) (2 ^ 64) with hx | hx
      · exact Or.inr (by rw [Nat.mod_eq_of_lt hx]; exact h)
      · exact Or.inl hx
  have hz : (decide (itemCount = 0) || decide (repeatCount = 0)) = false := by
    simp [hi, hr]
  simp only [embedDataArray, Bool.not_true, Bool.false_eq_true, if_false, hz, hflag, if_true]

/-- Helper: a width that is none of 1, 2, 4, 8 fails the source's
`!Support::isPowerOf2(dataSize) || dataSize > 8` filter. -/
theorem width_check_of_invalid (d : Nat) (hd : ¬ (d = 1 ∨ d = 2 ∨ d = 4 ∨ d = 8)) :
    (!(isPowerOf2 d) || decide (8 < d)) = true := by
  by_cases h8 : 8 < d
  · simp [h8]
  · have hle : d ≤ 8 := Nat.le_of_not_lt h8
    interval_cases d <;> simp_all [isPowerOf2]

/-- Helper: the widths 1, 2, 4 and 8 pass the source's width filter. -/
theorem width_check_of_valid (d : Nat) (hd : d = 1 ∨ d = 2 ∨ d = 4 ∨ d = 8) :
    (!(isPowerOf2 d) || decide (8 < d)) = false := by
  rcases hd with h | h | h | h <;> subst h <;> decide

/-- Claim C7: `embedLabelDelta` with valid labels and a requested width
(after the w = 0 → gpSize substitution) outside 1, 2, 4, 8 fails with
invalid-operand-size and leaves the state — in particular the section
buffer — unchanged. -/
theorem embedLabelDelta_invalid_size (st : AsmState) (labelId baseId w : Nat)
    (lE bE : LabelEntry)
    (hatt : st.attached = true)
    (hl : st.code.labelEntry labelId = some lE)
    (hb : st.code.labelEntry baseId = some bE)
    (hw : ¬ ((if w = 0 then st.gpSize else w) = 1 ∨ (if w = 0 then st.gpSize else w) = 2 ∨
             (if w = 0 then st.gpSize else w) = 4 ∨ (if w = 0 then st.gpSize else w) = 8)) :
    embedLabelDelta st labelId baseId w = (AsmError.invalidOperandSize, st) := by
  have hck := width_check_of_invalid _ hw
  simp only [embedLabelDelta, hatt, Bool.not_true, Bool.false_eq_true, if_false, hl, hb, hck,
    if_true]

/-- Claim C7, witness: a 3-byte delta request between two valid bound
labels is rejected with invalid-operand-size and the state is unchanged. -/
theorem embedLabelDelta_invalid_size_witness :
    embedLabelDelta sampleBound 0 1 3 = (AsmError.invalidOperandSize, sampleBound) :=
  embedLabelDelta_invalid_size sampleBound 0 1 3
    { sectionId := some 0, offset := 64 } { sectionId := some 0, offset := 16 }
    rfl rfl rfl (by decide)

/-- Claim C9, witness: embedding 2^64 one-byte items overflows the size
computation and is rejected with out-of-memory, leaving the state
unchanged. -/
theorem embedDataArray_overflow_oom_witness :
    embedDataArray sampleUnbound true 1 [0] (2 ^ 64) 1 =
      (AsmError.outOfMemory, sampleUnbound) :=
  embedDataArray_overflow_oom sampleUnbound 1 [0] (2 ^ 64) 1
    (by norm_num) (by norm_num) (Or.inl (by norm_num))

/-- Helper: resolving a single LabelLink never touches the label table. -/
theorem resolveLink_labels (ch : CodeHolder) (s o : Nat) (l : LabelLink) :
    (resolveLink ch s o l).2.labels = ch.labels := by
  unfold resolveLink
  rcases l.relocId with _ | rid
  · dsimp only
    split
    · split <;> rfl
    · rfl
  · rfl

/-- Helper: walking a LabelLink list, whatever errors the in-place
patches produce, never touches the label table. -/
theorem foldl_resolveLink_labels (links : List LabelLink) (p : AsmError × CodeHolder)
    (s o : Nat) :
    (links.foldl
      (fun acc l =>
        ((if acc.1 = AsmError.ok then (resolveLink acc.2 s o l).1 else acc.1),
         (resolveLink acc.2 s o l).2)) p).2.labels = p.2.labels := by
  induction links generalizing p with
  | nil => rfl
  | cons l ls ih =>
    rw [List.foldl_cons, ih]
    dsimp only
    rw [resolveLink_labels]

/-- Helper: binding an unbound label records the supplied section and
offset in its entry, whatever the link walk reports. -/
theorem bindLabel_labels_of_unbound (ch : CodeHolder) (labelId sectionId offset : Nat)
    (le : LabelEntry)
    (hl : ch.labels.get? labelId = some le) (hub : le.isBound = false) :
    (ch.bindLabel labelId sectionId offset).2.labels =
      ch.labels.set labelId { le with sectionId := some sectionId, offset := offset } := by
  unfold CodeHolder.bindLabel
  rw [hl]
  dsimp only
  rw [hub]
  simp only [Bool.false_eq_true, if_false]
  exact foldl_resolveLink_labels _ _ _ _

/-- Helper: binding an unbound label with no pending LabelLink succeeds. -/
theorem bindLabel_ok_of_no_links (ch : CodeHolder) (labelId sectionId offset : Nat)
    (le : LabelEntry)
    (hl : ch.labels.get? labelId = some le) (hub : le.isBound = false)
    (hnl : ch.links.filter (fun l => l.labelId == labelId) = []) :
    (ch.bindLabel labelId sectionId offset).1 = AsmError.ok := by
  unfold CodeHolder.bindLabel
  rw [hl]
  dsimp only
  rw [hub]
  simp only [Bool.false_eq_true, if_false]
  rw [hnl]
  rfl

/-- Helper: `bind` on an already-bound label fails with
label-already-bound and leaves the whole state unchanged. -/
theorem bind_of_bound (st : AsmState) (labelId : Nat) (le : LabelEntry)
    (hatt : st.attached = true)
    (hl : st.code.labels.get? labelId = some le)
    (hb : le.isBound = true) :
    bind st labelId = (AsmError.labelAlreadyBound, st) := by
  obtain ⟨att, gp, sec, code⟩ := st
  replace hatt : att = true := hatt
  subst hatt
  replace hl : code.labels.get? labelId = some le := hl
  have hbl : ∀ s o : Nat, code.bindLabel labelId s o = (AsmError.labelAlreadyBound, code) := by
    intro s o
    unfold CodeHolder.bindLabel
    rw [hl]
    dsimp only
    rw [hb]
    rfl
  unfold bind
  dsimp only
  simp only [Bool.not_true, Bool.false_eq_true, if_false]
  rw [hbl]

/-- Claim C4: binding an unbound label (here with no pending forward
reference, so the link walk cannot raise a patch error) succeeds and
records the current section and offset; a second `bind` of the same
label fails with label-already-bound and changes nothing — in
particular the label's recorded section and offset survive the failed
call. -/
theorem bind_twice_label_already_bound (st : AsmState) (labelId : Nat) (le : LabelEntry)
    (hatt : st.attached = true)
    (hl : st.code.labels.get? labelId = some le)
    (hub : le.isBound = false)
    (hnl : st.code.links.filter (fun l => l.labelId == labelId) = []) :
    (bind st labelId).1 = AsmError.ok ∧
    (bind st labelId).2.code.labels.get? labelId =
      some { le with sectionId := some st.sectionId, offset := st.offset } ∧
    bind (bind st labelId).2 labelId =
      (AsmError.labelAlreadyBound, (bind st labelId).2) := by
  obtain ⟨att, gp, sec, code⟩ := st
  replace hatt : att = true := hatt
  subst hatt
  replace hl : code.labels.get? labelId = some le := hl
  replace hnl : code.links.filter (fun l => l.labelId == labelId) = [] := hnl
  have hlen : labelId < code.labels.length := by
    by_contra hc
    rw [List.get?_eq_none.mpr (Nat.le_of_not_lt hc)] at hl
    cases hl
  have h1 :=
    bindLabel_ok_of_no_links code labelId sec
      (AsmState.offset ⟨true, gp, sec, code⟩) le hl hub hnl
  have h2 :=
    bindLabel_labels_of_unbound code labelId sec
      (AsmState.offset ⟨true, gp, sec, code⟩) le hl hub
  have hbind : bind ⟨true, gp, sec, code⟩ labelId =
      ((code.bindLabel labelId sec (AsmState.offset ⟨true, gp, sec, code⟩)).1,
       ⟨true, gp, sec,
         (code.bindLabel labelId sec (AsmState.offset ⟨true, gp, sec, code⟩)).2⟩) := by
    unfold bind
    dsimp only
    simp only [Bool.not_true, Bool.false_eq_true, if_false]
  have hget : (code.bindLabel labelId sec
      (AsmState.offset ⟨true, gp, sec, code⟩)).2.labels.get? labelId =
      some { le with
               sectionId := some sec,
               offset := AsmState.offset ⟨true, gp, sec, code⟩ } := by
    rw [h2]
    exact List.get?_set_eq_of_lt _ hlen
  rw [hbind]
  exact ⟨h1, hget, bind_of_bound _ labelId _ rfl hget rfl⟩

/-- Helper: appending through the CodeBufferWriter grows the active
section's buffer by exactly the emitted bytes. -/
theorem buffer_appendBytes (st : AsmState) (bs : List Nat)
    (h : st.sectionId < st.code.sections.length) :
    (st.appendBytes bs).buffer = st.buffer ++ bs := by
  unfold AsmState.appendBytes AsmState.buffer
  dsimp only
  rw [List.getD_eq_getElem _ _ (by simpa using h)]
  rw [List.getElem_set_self]

/-- Claim C1: on an attached assembler, `embedLabel` of a valid label
succeeds and creates a relative-to-absolute RelocEntry recording the
source position; exactly when the label is unbound it additionally
creates a LabelLink carrying that RelocEntry's id; and exactly gpSize
bytes (4 or 8, zeros as placeholder) are appended to the active
section. -/
theorem embedLabel_reloc_and_append (st : AsmState) (labelId : Nat) (le : LabelEntry)
    (hatt : st.attached = true)
    (hl : st.code.labelEntry labelId = some le)
    (hsec : st.sectionId < st.code.sections.length)
    (_hgp : st.gpSize = 4 ∨ st.gpSize = 8) :
    (embedLabel st labelId).1 = AsmError.ok ∧
    (∃ re : RelocEntry,
      (embedLabel st labelId).2.code.relocations = st.code.relocations ++ [re] ∧
      re.relocType = kTypeRelToAbs ∧
      re.valueSize = st.gpSize ∧
      re.sourceSectionId = st.sectionId ∧
      re.sourceOffset = st.offset ∧
      (le.isBound = false →
        (embedLabel st labelId).2.code.links = st.code.links ++
          [{ labelId := labelId, sectionId := st.sectionId, offset := st.offset,
             relOffset := 0, relocId := some re.id }]) ∧
      (le.isBound = true →
        (embedLabel st labelId).2.code.links = st.code.links)) ∧
    (embedLabel st labelId).2.buffer = st.buffer ++ List.replicate st.gpSize 0 := by
  obtain ⟨att, gp, sec, code⟩ := st
  replace hatt : att = true := hatt
  subst hatt
  replace hl : code.labelEntry labelId = some le := hl
  replace hsec : sec < code.sections.length := hsec
  rcases hs : le.sectionId with _ | s
  · -- unbound label: RelocEntry plus LabelLink
    have hE : embedLabel ⟨true, gp, sec, code⟩ labelId =
        (AsmError.ok, AsmState.appendBytes
          ⟨true, gp, sec,
            { code with
                relocations := code.relocations ++
                  [{ id := code.relocations.length, relocType := kTypeRelToAbs,
                     valueSize := gp, sourceSectionId := sec,
                     sourceOffset := AsmState.offset ⟨true, gp, sec, code⟩,
                     targetSectionId := kInvalidId, payload := .value 0 }],
                links := code.links ++
                  [{ labelId := labelId, sectionId := sec,
                     offset := AsmState.offset ⟨true, gp, sec, code⟩,
                     relOffset := 0, relocId := some code.relocations.length }] }⟩
          (List.replicate gp 0)) := by
      unfold embedLabel
      dsimp only
      simp only [Bool.not_true, Bool.false_eq_true, if_false]
      rw [hl]
      dsimp only
      rw [hs]
      rfl
    rw [hE]
    refine ⟨rfl, ⟨_, rfl, rfl, rfl, rfl, rfl, fun _ => rfl, fun hbd => ?_⟩, ?_⟩
    · rw [LabelEntry.isBound, hs] at hbd
      cases hbd
    · rw [buffer_appendBytes _ _ hsec]
      rfl
  · -- bound label: target section and offset recorded, no link
    have hE : embedLabel ⟨true, gp, sec, code⟩ labelId =
        (AsmError.ok, AsmState.appendBytes
          ⟨true, gp, sec,
            { code with
                relocations := code.relocations ++
                  [{ id := code.relocations.length, relocType := kTypeRelToAbs,
                     valueSize := gp, sourceSectionId := sec,
                     sourceOffset := AsmState.offset ⟨true, gp, sec, code⟩,
                     targetSectionId := s, payload := .value le.offset }] }⟩
          (List.replicate gp 0)) := by
      unfold embedLabel
      dsimp only
      simp only [Bool.not_true, Bool.false_eq_true, if_false]
      rw [hl]
      dsimp only
      rw [hs]
    rw [hE]
    refine ⟨rfl, ⟨_, rfl, rfl, rfl, rfl, rfl, fun hub => ?_, fun _ => rfl⟩, ?_⟩
    · rw [LabelEntry.isBound, hs] at hub
      cases hub
    · rw [buffer_appendBytes _ _ hsec]
      rfl

/-- Claim C3: with valid labels and a valid width w, `embedLabelDelta`
writes the w-byte little-endian difference of the two offsets directly
into the buffer and creates no RelocEntry when both labels are bound in
the same section; otherwise it allocates an expression RelocEntry
computing label − base and appends w zero bytes as placeholder. -/
theorem embedLabelDelta_bound_vs_reloc (st : AsmState) (labelId baseId w : Nat)
    (lE bE : LabelEntry)
    (hatt : st.attached = true)
    (hl : st.code.labelEntry labelId = some lE)
    (hb : st.code.labelEntry baseId = some bE)
    (hsec : st.sectionId < st.code.sections.length)
    (hw : w = 1 ∨ w = 2 ∨ w = 4 ∨ w = 8) :
    ((∃ s, lE.sectionId = some s ∧ bE.sectionId = some s) →
      embedLabelDelta st labelId baseId w =
        (AsmError.ok, st.appendBytes (leBytes w (u64sub lE.offset bE.offset))) ∧
      (embedLabelDelta st labelId baseId w).2.code.relocations =
        st.code.relocations) ∧
    (¬ (∃ s, lE.sectionId = some s ∧ bE.sectionId = some s) →
      (embedLabelDelta st labelId baseId w).1 = AsmError.ok ∧
      (embedLabelDelta st labelId baseId w).2.code.relocations =
        st.code.relocations ++
          [{ id := st.code.relocations.length, relocType := kTypeExpression,
             valueSize := w, sourceSectionId := st.sectionId,
             sourceOffset := st.offset, targetSectionId := kInvalidId,
             payload := .expression
               { opType := kOpSub, value0 := .labelRef labelId,
                 value1 := .labelRef baseId } }] ∧
      (embedLabelDelta st labelId baseId w).2.buffer =
        st.buffer ++ List.replicate w 0) := by
  obtain ⟨att, gp, sec, code⟩ := st
  replace hatt : att = true := hatt
  subst hatt
  replace hl : code.labelEntry labelId = some lE := hl
  replace hb : code.labelEntry baseId = some bE := hb
  replace hsec : sec < code.sections.length := hsec
  have hw0 : ¬ w = 0 := by rcases hw with h | h | h | h <;> omega
  have hwok := width_check_of_valid w hw
  constructor
  · rintro ⟨s, hs1, hs2⟩
    have hcond : (lE.isBound && bE.isBound && (lE.sectionId == bE.sectionId)) = true := by
      simp [LabelEntry.isBound, hs1, hs2]
    have hE : embedLabelDelta ⟨true, gp, sec, code⟩ labelId baseId w =
        (AsmError.ok, AsmState.appendBytes ⟨true, gp, sec, code⟩
          (leBytes w (u64sub lE.offset bE.offset))) := by
      unfold embedLabelDelta
      dsimp only
      simp only [Bool.not_true, Bool.false_eq_true, if_false]
      rw [hl, hb]
      dsimp only
      rw [if_neg hw0, hwok]
      simp only [Bool.false_eq_true, if_false]
      rw [hcond]
      rfl
    rw [hE]
    exact ⟨rfl, rfl⟩
  · intro hn
    have hcond : (lE.isBound && bE.isBound && (lE.sectionId == bE.sectionId)) = false := by
      rcases h1 : lE.sectionId with _ | s1
      · simp [LabelEntry.isBound, h1]
      · rcases h2 : bE.sectionId with _ | s2
        · simp [LabelEntry.isBound, h2]
        · have hne : s1 ≠ s2 := by
            intro he
            exact hn ⟨s1, h1, by rw [h2, he]⟩
          simp [LabelEntry.isBound, h1, h2, hne]
    have hE : embedLabelDelta ⟨true, gp, sec, code⟩ labelId baseId w =
        (AsmError.ok, AsmState.appendBytes
          ⟨true, gp, sec,
            { code with
                relocations := code.relocations ++
                  [{ id := code.relocations.length, relocType := kTypeExpression,
                     valueSize := w, sourceSectionId := sec,
                     sourceOffset := AsmState.offset ⟨true, gp, sec, code⟩,
                     targetSectionId := kInvalidId,
                     payload := .expression
                       { opType := kOpSub, value0 := .labelRef labelId,
                         value1 := .labelRef baseId } }] }⟩
          (List.replicate w 0)) := by
      unfold embedLabelDelta
      dsimp only
      simp only [Bool.not_true, Bool.false_eq_true, if_false]
      rw [hl, hb]
      dsimp only
      rw [if_neg hw0, hwok]
      simp only [Bool.false_eq_true, if_false]
      rw [hcond]
      rfl
    rw [hE]
    refine ⟨rfl, rfl, ?_⟩
    rw [buffer_appendBytes _ _ hsec]
    rfl

/-- Claim C3, witness: with the two labels bound at offsets 0x40 and
0x10 in section 0, a 4-byte delta embed writes 0x30 little-endian
directly (the state is the direct buffer append, no RelocEntry). -/
theorem embedLabelDelta_bound_vs_reloc_witness :
    embedLabelDelta sampleBound 0 1 4 =
      (AsmError.ok, sampleBound.appendBytes (leBytes 4 (u64sub 64 16))) :=
  ((embedLabelDelta_bound_vs_reloc sampleBound 0 1 4
      { sectionId := some 0, offset := 64 } { sectionId := some 0, offset := 16 }
      rfl rfl rfl (by decide) (Or.inr (Or.inr (Or.inl rfl)))).1 ⟨0, rfl, rfl⟩).1

/-- Claim C1, witness: embedding the unbound label of the concrete state
succeeds, creates the RelocEntry-plus-LabelLink pair, and appends 8 zero
bytes. -/
theorem embedLabel_reloc_and_append_witness :
    (embedLabel sampleUnbound 0).1 = AsmError.ok ∧
    (embedLabel sampleUnbound 0).2.buffer =
      sampleUnbound.buffer ++ List.replicate 8 0 :=
  ⟨(embedLabel_reloc_and_append sampleUnbound 0 { sectionId := none, offset := 0 }
      rfl rfl (by decide) (Or.inr rfl)).1,
   (embedLabel_reloc_and_append sampleUnbound 0 { sectionId := none, offset := 0 }
      rfl rfl (by decide) (Or.inr rfl)).2.2⟩

/-- Claim C4, witness: on the concrete state with one unbound label and
no pending links, the first bind succeeds and records section 0 offset
0, and the second bind fails with label-already-bound leaving everything
unchanged. -/
theorem bind_twice_label_already_bound_witness :
    (bind sampleUnbound 0).1 = AsmError.ok ∧
    (bind sampleUnbound 0).2.code.labels.get? 0 =
      some { sectionId := some 0, offset := 0 } ∧
    bind (bind sampleUnbound 0).2 0 =
      (AsmError.labelAlreadyBound, (bind sampleUnbound 0).2) :=
  bind_twice_label_already_bound sampleUnbound 0 { sectionId := none, offset := 0 }
    rfl rfl rfl rfl

end AsmJit
